import Mathlib

/-
Verification of the gpu-api control plane against its design specification.

The repository ships a React front-end (src/react.js), a README, and a
Kubernetes deployment manifest (src/unnamed/part_000). The Python control
core the spec describes (Job Store, Job Lifecycle Manager, Nodepool
Reconciler, Cluster Adapter) is not present in the repository, so those
components are modelled here from the spec text (section references are to
spec.md); the front-end and the manifest are embedded from their sources.
-/

namespace GpuApi

/-- Modelled from the spec, section 3 / 4.2: the missing backend's job
state enumeration `Pending, Provisioning, Running, Completed, Failed,
Cancelled`. -/
inductive JobState where
  | Pending
  | Provisioning
  | Running
  | Completed
  | Failed
  | Cancelled
deriving DecidableEq, Repr

/-- Modelled from the spec, section 4.2: `Completed / Failed / Cancelled`
are the terminal states. -/
def JobState.isTerminal : JobState → Bool
  | .Completed => true
  | .Failed => true
  | .Cancelled => true
  | _ => false

/-- Modelled from the spec, section 3: a job contributes to
`desired_count` exactly while it is in `Provisioning` or `Running`. -/
def JobState.isActive : JobState → Bool
  | .Provisioning => true
  | .Running => true
  | _ => false

/-- Modelled from the spec, section 3: the immutable job `config`
`(duration, node_count, task_type)`; `task_type` is kept as the wire
string and validated by `validConfig`. -/
structure JobConfig where
  duration : Nat
  node_count : Nat
  task_type : String
deriving DecidableEq, Repr

/-- Modelled from the spec, section 3: one `JobRecord` per submitted job,
with state, timestamps and the optional `error` message. -/
structure JobRecord where
  id : String
  config : JobConfig
  state : JobState
  created_at : Nat
  started_at : Option Nat
  completed_at : Option Nat
  error : Option String
deriving DecidableEq, Repr

/-- Modelled from the spec, section 7: the error taxonomy of the missing
Job Store (`InvalidConfig`, `NotFound`, `Conflict`). -/
inductive StoreError where
  | InvalidConfig
  | NotFound
  | Conflict
deriving DecidableEq, Repr

/-- Modelled from the spec, sections 3 and 4.1: a config is valid when
`duration` is a positive integer, `node_count` lies in `[1, pool_max]`,
and `task_type` is one of the three recognized kinds. -/
def validConfig (pool_max : Nat) (c : JobConfig) : Bool :=
  0 < c.duration && 1 ≤ c.node_count && c.node_count ≤ pool_max &&
    (c.task_type == "training" || c.task_type == "inference" ||
      c.task_type == "processing")

/-- Modelled from the spec, section 4.1: the Job Store registry, an
ordered sequence of job records in creation order. -/
abbrev Store := List JobRecord

/-- Modelled from the spec, section 4.1: the record `create` writes —
fresh id, `state = Pending`, `created_at = now`, no other timestamps, no
error. -/
def newRecord (id : String) (c : JobConfig) (now : Nat) : JobRecord :=
  { id := id, config := c, state := .Pending, created_at := now,
    started_at := none, completed_at := none, error := none }

/-- Modelled from the spec, section 4.1: `create(config)` appends a fresh
`Pending` record, or fails with `InvalidConfig` storing nothing. -/
def create (pool_max : Nat) (s : Store) (id : String) (c : JobConfig)
    (now : Nat) : Except StoreError Store :=
  if validConfig pool_max c then .ok (s ++ [newRecord id c now])
  else .error .InvalidConfig

/-- Modelled from the spec, section 4.1: `get(id)` returns the record or
fails with `NotFound`. -/
def Store.get (s : Store) (id : String) : Except StoreError JobRecord :=
  match s.find? (fun r => r.id == id) with
  | some r => .ok r
  | none => .error .NotFound

/-- Modelled from the spec, section 4.1: the Job Store's atomic
`transition(id, expected_state, new_state, mutator)` on a single record —
checks the current state, applies the mutator, writes the new state, or
fails with `Conflict` leaving the record as it was. -/
def transition (r : JobRecord) (expected next : JobState)
    (mutator : JobRecord → JobRecord) : Except StoreError JobRecord :=
  if r.state = expected then .ok { mutator r with state := next }
  else .error .Conflict

/-- Modelled from the spec, section 4.1: one pending `transition` call in
a race on a single job. -/
structure TransCall where
  expected : JobState
  next : JobState
  mutator : JobRecord → JobRecord

/-- Modelled from the spec, section 4.1: applying one `transition` call to
the stored record; a failed call keeps the stored record unchanged and
reports the error. -/
def applyCall (r : JobRecord) (c : TransCall) :
    JobRecord × Option StoreError :=
  match transition r c.expected c.next c.mutator with
  | .ok r2 => (r2, none)
  | .error e => (r, some e)

/-- Modelled from the spec, sections 4.1 and 5: concurrent `transition`
calls on one job are serialized by the per-job mutual-exclusion scope, so
a race is an arbitrary interleaving order, applied one call at a time;
the outcome list records, per call, `none` for success and `some e` for
failure. -/
def runCalls (r : JobRecord) : List TransCall →
    JobRecord × List (Option StoreError)
  | [] => (r, [])
  | c :: cs =>
    let step := applyCall r c
    let rest := runCalls step.1 cs
    (rest.1, step.2 :: rest.2)

/-- Modelled from the spec, section 4.2: the events of the per-job state
machine (admission, capacity ready, workload completion, the two
timeouts, and manual cancel), each carrying the observation time. -/
inductive LifecycleEvent where
  | admission
  | capacityReady (now : Nat)
  | workloadDoneOk (now : Nat)
  | workloadDoneErr (msg : String) (now : Nat)
  | durationTimeout (now : Nat)
  | provisionTimeout (now : Nat)
  | cancel (now : Nat)

/-- Modelled from the spec, sections 4.2 and 5: the Job Lifecycle Manager
drives every event through the Job Store's `transition` conflict check;
`cancel` on an already-terminal job is an idempotent no-op rather than an
error. -/
def applyEvent (r : JobRecord) : LifecycleEvent → Except StoreError JobRecord
  | .admission => transition r .Pending .Provisioning (fun j => j)
  | .capacityReady now =>
      transition r .Provisioning .Running
        (fun j => { j with started_at := some now })
  | .workloadDoneOk now =>
      transition r .Running .Completed
        (fun j => { j with completed_at := some now })
  | .workloadDoneErr msg now =>
      transition r .Running .Failed
        (fun j => { j with completed_at := some now, error := some msg })
  | .durationTimeout now =>
      transition r .Running .Failed
        (fun j => { j with completed_at := some now, error := some "job exceeded declared duration" })
  | .provisionTimeout now =>
      transition r .Provisioning .Failed
        (fun j => { j with completed_at := some now, error := some "capacity provisioning timed out" })
  | .cancel now =>
      if r.state.isTerminal then .ok r
      else .ok { r with state := .Cancelled, completed_at := some now }

/-- Modelled from the spec, section 4.2: the edges of the state machine
diagram (admission, capacity_ready, workload_done, cancel, the timeouts). -/
def stateEdge : JobState → JobState → Bool
  | .Pending, .Provisioning => true
  | .Pending, .Cancelled => true
  | .Provisioning, .Running => true
  | .Provisioning, .Failed => true
  | .Provisioning, .Cancelled => true
  | .Running, .Completed => true
  | .Running, .Failed => true
  | .Running, .Cancelled => true
  | _, _ => false

/-- Modelled from the spec, section 4.3 step 1: an accepted manual scale
request, honored for a bounded grace period and expiring afterwards so
that idle manual scale-ups also fall back to zero. -/
structure ManualOverride where
  count : Nat
  expires_at : Nat
deriving DecidableEq, Repr

/-- Modelled from the spec, sections 2-4: the state the missing control
core reconciles each tick — the Job Store contents, the node-pool size
read from the Cluster Adapter, the resize in flight (tracked via the
adapter's provisioning-state field), and any outstanding manual
override. -/
structure SystemState where
  jobs : List JobRecord
  actual_count : Nat
  pending_resize : Option Nat
  override : Option ManualOverride
deriving DecidableEq, Repr

/-- Modelled from the spec, sections 3 and 4.3 step 1: the job-driven
desired node count — the maximum `node_count` across all jobs currently
in `Provisioning` or `Running`, or `0` if none. -/
def desiredFromJobs (jobs : List JobRecord) : Nat :=
  (jobs.filterMap
    (fun r => if r.state.isActive then some r.config.node_count else none)).foldr
    max 0

/-- Modelled from the spec, section 4.3 step 1: an override contributes
only until its grace period expires. -/
def activeOverride (o : Option ManualOverride) (now : Nat) : Option Nat :=
  match o with
  | none => none
  | some ov => if now < ov.expires_at then some ov.count else none

/-- Modelled from the spec, sections 3 and 4.3 step 1: `desired_count` is
the job-driven desire folded (by max) with any outstanding manual
override; a scale-down override below the job-driven desire is never
outstanding because `scaleRequest` rejects it. -/
def desiredCount (jobs : List JobRecord) (o : Option ManualOverride)
    (now : Nat) : Nat :=
  match activeOverride o now with
  | none => desiredFromJobs jobs
  | some c => max (desiredFromJobs jobs) c

/-- Modelled from the spec, section 4.3 step 4: the capacity-ready signal
sent to a job, which triggers its `capacity_ready` transition through the
Job Store; on any job not in `Provisioning` the conflict check fails and
the record is left as it was. -/
def signalReady (now : Nat) (r : JobRecord) : JobRecord :=
  match applyEvent r (.capacityReady now) with
  | .ok r2 => r2
  | .error _ => r

/-- Modelled from the spec, section 4.3: one Reconciler tick. Step 1
computes `desired_count`; step 3 issues a resize for it when
`actual_count` differs and no resize is in flight; step 4 signals every
`Provisioning` job when `actual_count >= desired_count > 0`. Returns the
new state paired with the resize request issued this tick, if any. -/
def tick (s : SystemState) (now : Nat) : SystemState × Option Nat :=
  let desired := desiredCount s.jobs s.override now
  let jobs2 :=
    if desired ≤ s.actual_count ∧ 0 < desired then s.jobs.map (signalReady now)
    else s.jobs
  if s.actual_count ≠ desired ∧ s.pending_resize = none then
    ({ s with jobs := jobs2, pending_resize := some desired }, some desired)
  else
    ({ s with jobs := jobs2 }, none)

/-- Modelled from the spec, sections 4.3 and 4.4: the substrate finishing
the resize in flight — `actual_count` reaches the requested target and
the adapter's provisioning-state field reports the resize done. -/
def resizeComplete (s : SystemState) : SystemState :=
  match s.pending_resize with
  | some t => { s with actual_count := t, pending_resize := none }
  | none => s

/-- Modelled from the spec, sections 4.3 step 1 and 6: the manual scale
endpoint — rejected with `Conflict` (HTTP 409), leaving the state
untouched, when the job-driven desire exceeds the request; otherwise
accepted asynchronously by recording an override with a grace period. -/
def scaleRequest (s : SystemState) (requested now grace : Nat) :
    SystemState × Option StoreError :=
  if desiredFromJobs s.jobs > requested then (s, some .Conflict)
  else ({ s with override := some ⟨requested, now + grace⟩ }, none)

/-- Modelled from the spec, section 8: every submitted job has reached a
terminal state. -/
def allTerminal (jobs : List JobRecord) : Bool :=
  jobs.all (fun r => r.state.isTerminal)

/-- Modelled from the spec, section 8 (zero-cost guarantee): the region
the system enters once all jobs are terminal and no override is
outstanding — either the scale-down to 0 is in flight, or the pool is
already at 0 with nothing in flight; ticks and resize completions stay in
this region and issue no resize. -/
def zeroQuiescent (s : SystemState) : Prop :=
  allTerminal s.jobs = true ∧ s.override = none ∧
    (s.pending_resize = some 0 ∨
      (s.pending_resize = none ∧ s.actual_count = 0))

/-! Embedding of the reference front-end, src/react.js. -/

/-- Embeds the job-id generation of the Create GPU Job button in
src/react.js: the string built from the current millisecond clock
(Date.now). -/
def mkJobId (nowMs : Nat) : String :=
  "job_" ++ toString nowMs

/-- Embeds the body the front-end posts to /api/gpu/jobs in
src/react.js (the jobConfig object built in the Create GPU Job
onClick). -/
structure CreateJobBody where
  duration : Nat
  node_count : Nat
  task_type : String
  job_id : String
deriving DecidableEq, Repr

/-- Embeds the Create GPU Job onClick handler of src/react.js: it reads
the three form fields and attaches a job id derived from the current
millisecond. -/
def clickCreateJob (duration node_count : Nat) (task_type : String)
    (nowMs : Nat) : CreateJobBody :=
  { duration := duration, node_count := node_count,
    task_type := task_type, job_id := mkJobId nowMs }

/-- Embeds the JSON values appearing in the front-end's request bodies. -/
inductive JVal where
  | num (n : Nat)
  | str (s : String)
deriving DecidableEq, Repr

/-- Embeds a JSON object body as its ordered field list. -/
abbrev JsonBody := List (String × JVal)

/-- Embeds JSON.stringify of the jobConfig object sent by createJob in
src/react.js. -/
def createJobPayload (b : CreateJobBody) : JsonBody :=
  [("duration", .num b.duration), ("node_count", .num b.node_count),
    ("task_type", .str b.task_type), ("job_id", .str b.job_id)]

/-- Embeds JSON.stringify of the body sent by scaleNodepool in
src/react.js. -/
def scalePayload (node_count : Nat) : JsonBody :=
  [("node_count", .num node_count)]

/-- Embeds an HTTP request as the front-end issues it. -/
structure HttpRequest where
  method : String
  path : String
  body : JsonBody
deriving DecidableEq, Repr

/-- Embeds the POST request issued by createJob in src/react.js. -/
def createJobRequest (b : CreateJobBody) : HttpRequest :=
  { method := "POST", path := "/api/gpu/jobs", body := createJobPayload b }

/-- Embeds the POST request issued by scaleNodepool in src/react.js. -/
def scaleNodepoolRequest (n : Nat) : HttpRequest :=
  { method := "POST", path := "/api/gpu/nodepool/scale", body := scalePayload n }

/-- Embeds the first fetch of fetchData in src/react.js. -/
def fetchJobsRequest : HttpRequest :=
  { method := "GET", path := "/api/gpu/jobs", body := [] }

/-- Embeds the second fetch of fetchData in src/react.js. -/
def fetchStatusRequest : HttpRequest :=
  { method := "GET", path := "/api/gpu/nodepool/status", body := [] }

/-- Embeds the top-level field fetchData reads from the jobs response
(jobsData.jobs). -/
def jobsResponseFieldsRead : List String := ["jobs"]

/-- Embeds the fields the nodepool status card of src/react.js reads from
the status response. -/
def statusFieldsRead : List String :=
  ["count", "vm_size", "provisioning_state", "power_state"]

/-- Embeds the status fields src/react.js guards with a fallback and so
tolerates missing (power_state is rendered as N/A when absent). -/
def statusFieldsReadWithFallback : List String := ["power_state"]

/-- Embeds the fields the Active Jobs list of src/react.js reads from
each job entry. -/
def jobEntryFieldsRead : List String :=
  ["status", "config", "created_at", "completed_at", "error"]

/-- Embeds the fields src/react.js reads from a job entry's config
object. -/
def jobConfigFieldsRead : List String :=
  ["node_count", "duration", "task_type"]

/-! Embedding of the deployment manifest, src/unnamed/part_000. -/

/-- Embeds the Deployment object of src/unnamed/part_000 (name gpu-api,
spec.replicas, containerPort). -/
structure DeploymentManifest where
  name : String
  replicas : Nat
  containerPort : Nat
deriving DecidableEq, Repr

/-- Embeds the gpu-api Deployment of src/unnamed/part_000: its spec asks
for 2 replicas of the service. -/
def gpuApiDeployment : DeploymentManifest :=
  { name := "gpu-api", replicas := 2, containerPort := 5000 }

/-- Modelled from the spec, section 5: each running instance of the
service hosts one long-lived reconciliation loop. -/
def reconcilerLoopsPerInstance : Nat := 1

/-- Number of concurrently running reconciliation loops the manifest
deploys: one per replica of the service. -/
def deployedReconcilerLoops : Nat :=
  gpuApiDeployment.replicas * reconcilerLoopsPerInstance

/-! Modelled from the spec, section 6: the wire contract's request and
response field shapes. -/

/-- Modelled from the spec, section 6: fields of the POST /api/gpu/jobs
request, job_id being the optional one. -/
def contractJobsPostFields : List String :=
  ["duration", "node_count", "task_type", "job_id"]

/-- Modelled from the spec, section 6: the required fields of the POST
/api/gpu/jobs request. -/
def contractJobsPostRequired : List String :=
  ["duration", "node_count", "task_type"]

/-- Modelled from the spec, section 6: the fields of the POST
/api/gpu/nodepool/scale request. -/
def contractScaleFields : List String := ["node_count"]

/-- Modelled from the spec, section 6: fields of the GET
/api/gpu/nodepool/status response. -/
def contractStatusFields : List String :=
  ["count", "vm_size", "provisioning_state", "power_state"]

/-- Modelled from the spec, section 6: the required fields of the status
response; power_state is optional. -/
def contractStatusRequired : List String :=
  ["count", "vm_size", "provisioning_state"]

/-- Modelled from the spec, section 6: the top-level field of the GET
/api/gpu/jobs response. -/
def contractJobsGetFields : List String := ["jobs"]

/-- Modelled from the spec, section 6: the fields of one job entry in the
GET /api/gpu/jobs response. -/
def contractJobEntryFields : List String :=
  ["status", "config", "created_at", "completed_at", "error"]

/-- Field names of a JSON object body, in order. -/
def bodyKeys (b : JsonBody) : List String := b.map Prod.fst

/-! Sample records used by the concrete witnesses. -/

/-- Sample valid config (Scenario A of the spec). -/
def sampleConfig : JobConfig :=
  { duration := 300, node_count := 2, task_type := "training" }

/-- Sample job in the Running state. -/
def sampleRunning : JobRecord :=
  { id := "j1", config := sampleConfig, state := .Running, created_at := 0,
    started_at := some 1, completed_at := none, error := none }

/-- Sample job in the Provisioning state. -/
def sampleProvisioning : JobRecord :=
  { id := "j3", config := sampleConfig, state := .Provisioning,
    created_at := 0, started_at := none, completed_at := none, error := none }

/-- Sample job in the terminal Completed state. -/
def sampleCompleted : JobRecord :=
  { id := "j2", config := sampleConfig, state := .Completed, created_at := 0,
    started_at := some 1, completed_at := some 2, error := none }

/-! Helper lemmas. -/

/-- A terminal state is never active. -/
theorem isActive_eq_false_of_isTerminal (st : JobState)
    (h : st.isTerminal = true) : st.isActive = false := by
  cases st <;> simp_all [JobState.isTerminal, JobState.isActive]

/-- Every element of a list of naturals is bounded by its max fold. -/
theorem le_foldr_max (l : List Nat) (a : Nat) (h : a ∈ l) :
    a ≤ l.foldr max 0 := by
  induction l with
  | nil => cases h
  | cons b bs ih =>
    rcases List.mem_cons.mp h with rfl | h2
    · exact le_max_left _ _
    · exact le_trans (ih h2) (le_max_right _ _)

/-- An active job's node count is bounded by the job-driven desire. -/
theorem node_count_le_desiredFromJobs (jobs : List JobRecord)
    (r : JobRecord) (hmem : r ∈ jobs) (hact : r.state.isActive = true) :
    r.config.node_count ≤ desiredFromJobs jobs := by
  apply le_foldr_max
  exact List.mem_filterMap.mpr ⟨r, hmem, by simp [hact]⟩

/-- With every job terminal, the job-driven desire is zero. -/
theorem desiredFromJobs_eq_zero (jobs : List JobRecord)
    (h : allTerminal jobs = true) : desiredFromJobs jobs = 0 := by
  unfold desiredFromJobs
  have hnil :
      jobs.filterMap
        (fun r => if r.state.isActive then some r.config.node_count
          else none) = [] := by
    rw [List.filterMap_eq_nil_iff]
    intro r hr
    have hterm := List.all_eq_true.mp h r hr
    simp [isActive_eq_false_of_isTerminal _ hterm]
  rw [hnil]
  rfl

/-- With every job terminal and no outstanding override, the computed
desired count is zero. -/
theorem desiredCount_eq_zero (jobs : List JobRecord) (now : Nat)
    (h : allTerminal jobs = true) :
    desiredCount jobs none now = 0 := by
  simp [desiredCount, activeOverride, desiredFromJobs_eq_zero jobs h]

/-! Claim theorems. -/

/-- Calls whose expected state does not match the stored record all fail
with Conflict and leave the record untouched. -/
theorem runCalls_all_conflict (r : JobRecord) (cs : List TransCall)
    (h : ∀ c ∈ cs, c.expected ≠ r.state) :
    runCalls r cs = (r, cs.map (fun _ => some StoreError.Conflict)) := by
  induction cs with
  | nil => rfl
  | cons c cs ih =>
    have hc : r.state ≠ c.expected :=
      fun he => h c (List.mem_cons_self c cs) he.symm
    have happ : applyCall r c = (r, some .Conflict) := by
      unfold applyCall transition
      rw [if_neg hc]
    simp only [runCalls, happ]
    rw [ih (fun c2 hc2 => h c2 (List.mem_cons_of_mem c hc2))]
    rfl

/-- A successful transition call observed the expected state and wrote
the new one. -/
theorem transition_ok (r : JobRecord) (E N : JobState)
    (m : JobRecord → JobRecord) (r2 : JobRecord)
    (hok : transition r E N m = .ok r2) : r.state = E ∧ r2.state = N := by
  unfold transition at hok
  split_ifs at hok with hst
  injection hok with h2
  exact ⟨hst, by rw [← h2]⟩

/-- Helper for tick idempotence: a tick that sees a resize in flight
issues nothing. -/
theorem tick_noop_of_pending (s : SystemState) (now : Nat)
    (h : s.pending_resize ≠ none) : (tick s now).2 = none := by
  simp only [tick]
  rw [if_neg]
  intro hcon
  exact h hcon.2

/-- Helper for tick idempotence: a tick that issues a resize leaves it
recorded as in flight. -/
theorem tick_pending_of_issued (s : SystemState) (now : Nat)
    (h : (tick s now).2.isSome = true) :
    (tick s now).1.pending_resize ≠ none := by
  by_cases hc : s.actual_count ≠ desiredCount s.jobs s.override now ∧
      s.pending_resize = none
  · simp only [tick]
    rw [if_pos hc]
    simp
  · simp only [tick] at h
    rw [if_neg hc] at h
    simp at h

/-- Helper for tick idempotence: a tick observing actual equal to
desired issues nothing. -/
theorem tick_noop_of_eq (s : SystemState) (now : Nat)
    (h : s.actual_count = desiredCount s.jobs s.override now) :
    (tick s now).2 = none := by
  simp only [tick]
  rw [if_neg]
  intro hcon
  exact hcon.1 h

/-- C2: capacity-safety invariant — whenever at least one job is in
Provisioning or Running, the desired count the Reconciler computes is at
least that job's node_count, hence at least the maximum node_count over
all such jobs. -/
theorem desired_count_covers_active_jobs (jobs : List JobRecord)
    (o : Option ManualOverride) (now : Nat) (r : JobRecord)
    (hmem : r ∈ jobs) (hact : r.state.isActive = true) :
    r.config.node_count ≤ desiredCount jobs o now := by
  have h1 := node_count_le_desiredFromJobs jobs r hmem hact
  unfold desiredCount
  cases activeOverride o now with
  | none => exact h1
  | some c => exact le_trans h1 (le_max_left _ _)

/-- Witness for C2: a concrete Running job with node_count 2 is covered
by the computed desired count. -/
theorem desired_count_covers_active_jobs_witness :
    sampleRunning ∈ [sampleRunning] ∧
    sampleRunning.state.isActive = true ∧
    sampleRunning.config.node_count ≤ desiredCount [sampleRunning] none 5 :=
  ⟨by simp, by decide,
    desired_count_covers_active_jobs [sampleRunning] none 5 sampleRunning
      (by simp) (by decide)⟩

/-- C6: a manual scale request strictly below the job-driven desired
count is rejected with Conflict and leaves the system state — in
particular the node pool target — unchanged. -/
theorem manual_scale_down_rejected (s : SystemState)
    (requested now grace : Nat)
    (h : requested < desiredFromJobs s.jobs) :
    scaleRequest s requested now grace = (s, some .Conflict) := by
  unfold scaleRequest
  rw [if_pos h]

/-- Witness for C6, Scenario D of the spec: scaling to 0 while a job is
Running is rejected with Conflict and changes nothing. -/
theorem manual_scale_down_rejected_witness :
    0 < desiredFromJobs
        (SystemState.mk [sampleRunning] 2 none none).jobs ∧
    scaleRequest (SystemState.mk [sampleRunning] 2 none none) 0 9 60 =
      (SystemState.mk [sampleRunning] 2 none none, some .Conflict) :=
  ⟨by decide,
    manual_scale_down_rejected (SystemState.mk [sampleRunning] 2 none none)
      0 9 60 (by decide)⟩

/-- Appending a record whose id no existing record carries makes lookup
find exactly the new record. -/
theorem find_append_fresh (s : Store) (id : String) (rec : JobRecord)
    (hrec : (rec.id == id) = true)
    (h : ∀ r ∈ s, r.id ≠ id) :
    List.find? (fun r => r.id == id) (s ++ [rec]) = some rec := by
  induction s with
  | nil => simp [List.find?, hrec]
  | cons a as ih =>
    have ha : (a.id == id) = false := by
      simp only [beq_eq_false_iff_ne, ne_eq]
      exact h a (List.mem_cons_self a as)
    rw [List.cons_append]
    simp only [List.find?_cons, ha]
    exact ih (fun r hr => h r (List.mem_cons_of_mem a hr))

/-- C7: for every valid config, create appends a fresh record that a
subsequent get returns in state Pending with the submitted config and
unset started_at and completed_at; for every invalid config, create
fails with InvalidConfig and stores nothing. -/
theorem create_then_get_pending (pool_max : Nat) (s : Store) (id : String)
    (c : JobConfig) (now : Nat) :
    (validConfig pool_max c = true →
      create pool_max s id c now = .ok (s ++ [newRecord id c now]) ∧
      ((∀ r ∈ s, r.id ≠ id) →
        Store.get (s ++ [newRecord id c now]) id =
          .ok (newRecord id c now)) ∧
      (newRecord id c now).state = .Pending ∧
      (newRecord id c now).config = c ∧
      (newRecord id c now).started_at = none ∧
      (newRecord id c now).completed_at = none) ∧
    (validConfig pool_max c = false →
      create pool_max s id c now = .error .InvalidConfig) := by
  constructor
  · intro hv
    refine ⟨by simp [create, hv], ?_, rfl, rfl, rfl, rfl⟩
    intro hfresh
    unfold Store.get
    rw [find_append_fresh s id (newRecord id c now) (by simp [newRecord])
      hfresh]
  · intro hv
    simp [create, hv]

/-- Witness for C7: creating a job with the sample valid config in an
empty store and reading it back. -/
theorem create_then_get_pending_witness :
    validConfig 3 sampleConfig = true ∧
    create 3 [] "jobX" sampleConfig 7 =
      .ok [newRecord "jobX" sampleConfig 7] ∧
    Store.get [newRecord "jobX" sampleConfig 7] "jobX" =
      .ok (newRecord "jobX" sampleConfig 7) :=
  ⟨by decide,
    by
      have h := (create_then_get_pending 3 [] "jobX" sampleConfig 7).1
        (by decide)
      simpa using h.1,
    by
      have h := (create_then_get_pending 3 [] "jobX" sampleConfig 7).1
        (by decide)
      simpa using h.2.1 (by simp)⟩

/-- C8: the spec requires exactly one long-lived reconciliation loop as
the sole issuer of resize calls, but the deployment manifest runs the
service with replicas set to 2, so two loops run concurrently — the
deployed loop count is 2, not 1. -/
theorem two_reconciler_loops_deployed :
    gpuApiDeployment.replicas = 2 ∧ deployedReconcilerLoops = 2 ∧
    deployedReconcilerLoops ≠ 1 := by
  refine ⟨rfl, rfl, by decide⟩

/-- C9: the front-end generates job ids from the millisecond clock, so
two distinct submissions within the same millisecond carry equal job ids
— job-id uniqueness fails. -/
theorem jobid_collision_same_millisecond :
    clickCreateJob 300 2 "training" 1714000000000 ≠
      clickCreateJob 60 1 "inference" 1714000000000 ∧
    (clickCreateJob 300 2 "training" 1714000000000).job_id =
      (clickCreateJob 60 1 "inference" 1714000000000).job_id := by
  constructor
  · intro h
    have hd := congrArg CreateJobBody.duration h
    simp [clickCreateJob] at hd
  · rfl

/-- C10: wire-contract conformance — the front-end's POST bodies carry
exactly the section 6 field sets, its requests target the section 6
methods and paths, and the fields it reads from the GET responses are
exactly the section 6 response shapes, with power_state the only
optional status field and guarded by a fallback. -/
theorem frontend_wire_contract (b : CreateJobBody) (n : Nat) :
    (createJobRequest b).method = "POST" ∧
    (createJobRequest b).path = "/api/gpu/jobs" ∧
    bodyKeys (createJobRequest b).body = contractJobsPostFields ∧
    (scaleNodepoolRequest n).method = "POST" ∧
    (scaleNodepoolRequest n).path = "/api/gpu/nodepool/scale" ∧
    bodyKeys (scaleNodepoolRequest n).body = contractScaleFields ∧
    fetchJobsRequest.method = "GET" ∧
    fetchJobsRequest.path = "/api/gpu/jobs" ∧
    fetchStatusRequest.method = "GET" ∧
    fetchStatusRequest.path = "/api/gpu/nodepool/status" ∧
    jobsResponseFieldsRead = contractJobsGetFields ∧
    statusFieldsRead = contractStatusFields ∧
    jobEntryFieldsRead = contractJobEntryFields ∧
    (contractStatusFields.all
      (fun f => contractStatusRequired.contains f ||
        statusFieldsReadWithFallback.contains f)) = true ∧
    (contractJobsPostRequired.all
      (fun f => (bodyKeys (createJobPayload b)).contains f)) = true ∧
    (jobConfigFieldsRead.all
      (fun f => contractJobsPostRequired.contains f)) = true := by
  refine ⟨rfl, rfl, rfl, rfl, rfl, rfl, rfl, rfl, rfl, rfl, rfl, rfl, rfl,
    by decide, rfl, by decide⟩

/-- C3: among transition calls racing on one job whose expected states
conflict with the interleaved outcome (each expects the initial state and
writes a different one), at most one call succeeds, every other call
fails with Conflict, and a failed call leaves the stored record
unchanged. -/
theorem conflicting_transitions_at_most_one_success (r : JobRecord)
    (cs : List TransCall)
    (hexp : ∀ c ∈ cs, c.expected = r.state)
    (hnext : ∀ c ∈ cs, c.next ≠ r.state) :
    (runCalls r cs).2.countP (fun o => o.isNone) ≤ 1 ∧
    (∀ o ∈ (runCalls r cs).2, o ≠ none → o = some .Conflict) ∧
    (∀ (j : JobRecord) (c : TransCall),
      (applyCall j c).2 ≠ none → (applyCall j c).1 = j) := by
  have hfail : ∀ (j : JobRecord) (c : TransCall),
      (applyCall j c).2 ≠ none → (applyCall j c).1 = j := by
    intro j c hf
    unfold applyCall at hf ⊢
    cases htr : transition j c.expected c.next c.mutator with
    | ok r2 => rw [htr] at hf; exact absurd rfl hf
    | error e => rfl
  cases cs with
  | nil => exact ⟨by simp [runCalls], by simp [runCalls], hfail⟩
  | cons c cs2 =>
    have hce : c.expected = r.state := hexp c (List.mem_cons_self c cs2)
    have hcn : c.next ≠ r.state := hnext c (List.mem_cons_self c cs2)
    have happ : applyCall r c =
        ({ c.mutator r with state := c.next }, none) := by
      unfold applyCall transition
      rw [if_pos hce.symm]
    have hrest : runCalls { c.mutator r with state := c.next } cs2 =
        ({ c.mutator r with state := c.next },
          cs2.map (fun _ => some StoreError.Conflict)) := by
      apply runCalls_all_conflict
      intro c2 hc2
      rw [hexp c2 (List.mem_cons_of_mem c hc2)]
      exact fun he => hcn he.symm
    have hrun : runCalls r (c :: cs2) =
        ({ c.mutator r with state := c.next },
          none :: cs2.map (fun _ => some StoreError.Conflict)) := by
      simp only [runCalls, happ, hrest]
    have h0 : List.countP (fun o => o.isNone)
        (cs2.map (fun _ => some StoreError.Conflict)) = 0 := by
      rw [List.countP_eq_zero]
      intro o ho
      rcases List.mem_map.mp ho with ⟨c2, _, rfl⟩
      simp
    refine ⟨?_, ?_, hfail⟩
    · rw [hrun]
      simp only [List.countP_cons, h0]
      simp
    · rw [hrun]
      intro o ho hne
      rcases List.mem_cons.mp ho with rfl | ho2
      · exact absurd rfl hne
      · rcases List.mem_map.mp ho2 with ⟨c2, _, rfl⟩
        rfl

/-- Two transition calls racing to mark the same Provisioning job
Running. -/
def raceCalls : List TransCall :=
  [{ expected := .Provisioning, next := .Running,
     mutator := fun j => { j with started_at := some 4 } },
   { expected := .Provisioning, next := .Running,
     mutator := fun j => { j with started_at := some 5 } }]

/-- Witness for C3: in the double capacity-ready race of the spec, at
most one of the two calls succeeds. -/
theorem conflicting_transitions_witness :
    (runCalls sampleProvisioning raceCalls).2.countP
      (fun o => o.isNone) ≤ 1 ∧
    (runCalls sampleProvisioning raceCalls).2 = [none, some .Conflict] :=
  ⟨(conflicting_transitions_at_most_one_success sampleProvisioning raceCalls
      (by intro c hc; fin_cases hc <;> rfl)
      (by intro c hc; fin_cases hc <;> decide)).1,
    by decide⟩

/-- C4: reconciler tick idempotence — two consecutive ticks with no
job-state change between them issue at most one resize request, a tick
observing actual equal to desired issues none, and a tick with a resize
already in flight issues none. -/
theorem reconciler_tick_idempotent (s : SystemState) (now now2 : Nat) :
    ((tick s now).2.isSome = true → (tick (tick s now).1 now2).2 = none) ∧
    (s.actual_count = desiredCount s.jobs s.override now →
      (tick s now).2 = none) ∧
    (s.pending_resize ≠ none → (tick s now).2 = none) :=
  ⟨fun h => tick_noop_of_pending (tick s now).1 now2
      (tick_pending_of_issued s now h),
    fun h => tick_noop_of_eq s now h,
    fun h => tick_noop_of_pending s now h⟩

/-- Witness for C4: from a state that makes the first tick issue a
resize, the immediately following tick issues none. -/
theorem reconciler_tick_idempotent_witness :
    (tick (SystemState.mk [sampleProvisioning] 0 none none) 1).2.isSome
        = true ∧
    (tick (tick (SystemState.mk [sampleProvisioning] 0 none none) 1).1
        2).2 = none :=
  ⟨by decide,
    (reconciler_tick_idempotent
        (SystemState.mk [sampleProvisioning] 0 none none) 1 2).1
      (by decide)⟩

/-- On a terminal record every lifecycle event either fails with
Conflict or is the idempotent cancel no-op. -/
theorem applyEvent_terminal (r : JobRecord) (e : LifecycleEvent)
    (h : r.state.isTerminal = true) :
    applyEvent r e = .error .Conflict ∨ applyEvent r e = .ok r := by
  have hne : ∀ st : JobState, st.isTerminal = false → r.state ≠ st := by
    intro st hst he
    rw [he] at h
    rw [hst] at h
    exact Bool.noConfusion h
  cases e with
  | admission =>
    left; simp only [applyEvent, transition]
    rw [if_neg (hne .Pending rfl)]
  | capacityReady now =>
    left; simp only [applyEvent, transition]
    rw [if_neg (hne .Provisioning rfl)]
  | workloadDoneOk now =>
    left; simp only [applyEvent, transition]
    rw [if_neg (hne .Running rfl)]
  | workloadDoneErr msg now =>
    left; simp only [applyEvent, transition]
    rw [if_neg (hne .Running rfl)]
  | durationTimeout now =>
    left; simp only [applyEvent, transition]
    rw [if_neg (hne .Running rfl)]
  | provisionTimeout now =>
    left; simp only [applyEvent, transition]
    rw [if_neg (hne .Provisioning rfl)]
  | cancel now =>
    right; simp only [applyEvent]
    rw [if_pos h]

/-- The reconciler's capacity-ready signal leaves a terminal record
untouched. -/
theorem signalReady_terminal (r : JobRecord) (now : Nat)
    (h : r.state.isTerminal = true) : signalReady now r = r := by
  have hne : r.state ≠ .Provisioning := by
    intro he
    rw [he] at h
    exact Bool.noConfusion h
  simp only [signalReady, applyEvent, transition]
  rw [if_neg hne]

/-- Every successful lifecycle event is either a no-op or follows an
edge of the section 4.2 state machine. -/
theorem applyEvent_ok_edge (r : JobRecord) (e : LifecycleEvent)
    (r2 : JobRecord) (hok : applyEvent r e = .ok r2) :
    r2 = r ∨ stateEdge r.state r2.state = true := by
  cases e with
  | admission =>
    simp only [applyEvent] at hok
    obtain ⟨h1, h2⟩ := transition_ok r _ _ _ r2 hok
    right; rw [h1, h2]; decide
  | capacityReady now =>
    simp only [applyEvent] at hok
    obtain ⟨h1, h2⟩ := transition_ok r _ _ _ r2 hok
    right; rw [h1, h2]; decide
  | workloadDoneOk now =>
    simp only [applyEvent] at hok
    obtain ⟨h1, h2⟩ := transition_ok r _ _ _ r2 hok
    right; rw [h1, h2]; decide
  | workloadDoneErr msg now =>
    simp only [applyEvent] at hok
    obtain ⟨h1, h2⟩ := transition_ok r _ _ _ r2 hok
    right; rw [h1, h2]; decide
  | durationTimeout now =>
    simp only [applyEvent] at hok
    obtain ⟨h1, h2⟩ := transition_ok r _ _ _ r2 hok
    right; rw [h1, h2]; decide
  | provisionTimeout now =>
    simp only [applyEvent] at hok
    obtain ⟨h1, h2⟩ := transition_ok r _ _ _ r2 hok
    right; rw [h1, h2]; decide
  | cancel now =>
    simp only [applyEvent] at hok
    split_ifs at hok with hterm
    · injection hok with h2; left; exact h2.symm
    · injection hok with h2
      right
      have h3 : r2.state = .Cancelled := by rw [← h2]
      rw [h3]
      cases hs : r.state <;>
        first
          | decide
          | (rw [hs] at hterm; exact absurd rfl hterm)

/-- A state-changing lifecycle event cannot be applied a second time:
the repeat either hits the Conflict check or is the cancel no-op. -/
theorem applyEvent_no_repeat (r : JobRecord) (e : LifecycleEvent)
    (r2 : JobRecord) (hok : applyEvent r e = .ok r2)
    (hne : r2.state ≠ r.state) :
    applyEvent r2 e = .error .Conflict ∨ applyEvent r2 e = .ok r2 := by
  cases e with
  | admission =>
    simp only [applyEvent] at hok
    obtain ⟨h1, h2⟩ := transition_ok r _ _ _ r2 hok
    left; simp only [applyEvent, transition]
    rw [if_neg (show r2.state ≠ .Pending by rw [h2]; decide)]
  | capacityReady now =>
    simp only [applyEvent] at hok
    obtain ⟨h1, h2⟩ := transition_ok r _ _ _ r2 hok
    left; simp only [applyEvent, transition]
    rw [if_neg (show r2.state ≠ .Provisioning by rw [h2]; decide)]
  | workloadDoneOk now =>
    simp only [applyEvent] at hok
    obtain ⟨h1, h2⟩ := transition_ok r _ _ _ r2 hok
    left; simp only [applyEvent, transition]
    rw [if_neg (show r2.state ≠ .Running by rw [h2]; decide)]
  | workloadDoneErr msg now =>
    simp only [applyEvent] at hok
    obtain ⟨h1, h2⟩ := transition_ok r _ _ _ r2 hok
    left; simp only [applyEvent, transition]
    rw [if_neg (show r2.state ≠ .Running by rw [h2]; decide)]
  | durationTimeout now =>
    simp only [applyEvent] at hok
    obtain ⟨h1, h2⟩ := transition_ok r _ _ _ r2 hok
    left; simp only [applyEvent, transition]
    rw [if_neg (show r2.state ≠ .Running by rw [h2]; decide)]
  | provisionTimeout now =>
    simp only [applyEvent] at hok
    obtain ⟨h1, h2⟩ := transition_ok r _ _ _ r2 hok
    left; simp only [applyEvent, transition]
    rw [if_neg (show r2.state ≠ .Provisioning by rw [h2]; decide)]
  | cancel now =>
    simp only [applyEvent] at hok
    split_ifs at hok with hterm
    · injection hok with h2
      exact absurd (show r2.state = r.state by rw [← h2]) hne
    · injection hok with h2
      right
      have h3 : r2.state = .Cancelled := by rw [← h2]
      simp only [applyEvent]
      rw [if_pos (show r2.state.isTerminal = true by rw [h3]; rfl)]

/-- C5: terminal-state immutability — once a job is Completed, Failed or
Cancelled no lifecycle event or reconciler signal changes its record
again, every successful event follows the section 4.2 state machine, and
no state-changing event can be applied twice. -/
theorem terminal_state_immutable (r : JobRecord) (e : LifecycleEvent) :
    (r.state.isTerminal = true →
      applyEvent r e = .error .Conflict ∨ applyEvent r e = .ok r) ∧
    (r.state.isTerminal = true → ∀ now, signalReady now r = r) ∧
    (∀ r2, applyEvent r e = .ok r2 →
      r2 = r ∨ stateEdge r.state r2.state = true) ∧
    (∀ r2, applyEvent r e = .ok r2 → r2.state ≠ r.state →
      applyEvent r2 e = .error .Conflict ∨ applyEvent r2 e = .ok r2) :=
  ⟨fun h => applyEvent_terminal r e h,
    fun h now => signalReady_terminal r now h,
    fun r2 hok => applyEvent_ok_edge r e r2 hok,
    fun r2 hok hne => applyEvent_no_repeat r e r2 hok hne⟩

/-- Witness for C5: cancelling an already-Completed job leaves its
record unchanged. -/
theorem terminal_state_immutable_witness :
    sampleCompleted.state.isTerminal = true ∧
    (applyEvent sampleCompleted (.cancel 9) = .error .Conflict ∨
      applyEvent sampleCompleted (.cancel 9) = .ok sampleCompleted) :=
  ⟨by decide,
    (terminal_state_immutable sampleCompleted (.cancel 9)).1 (by decide)⟩

/-- Once the system is zero-quiescent, every further tick issues no
resize and both ticks and resize completions keep it zero-quiescent. -/
theorem zeroQuiescent_stable (s2 : SystemState) (now2 : Nat)
    (h : zeroQuiescent s2) :
    (tick s2 now2).2 = none ∧ zeroQuiescent (tick s2 now2).1 ∧
    zeroQuiescent (resizeComplete s2) := by
  obtain ⟨hterm, hov, hp⟩ := h
  have hd : desiredCount s2.jobs s2.override now2 = 0 := by
    rw [hov]; exact desiredCount_eq_zero s2.jobs now2 hterm
  have hcond : ¬(s2.actual_count ≠ desiredCount s2.jobs s2.override now2 ∧
      s2.pending_resize = none) := by
    rintro ⟨hne2, hpn⟩
    rcases hp with hp | ⟨hp, ha⟩
    · rw [hpn] at hp; cases hp
    · exact hne2 (by rw [hd, ha])
  have hjobs2 : (if desiredCount s2.jobs s2.override now2 ≤
      s2.actual_count ∧ 0 < desiredCount s2.jobs s2.override now2 then
        s2.jobs.map (signalReady now2) else s2.jobs) = s2.jobs := by
    rw [if_neg]
    rintro ⟨_, hpos⟩
    rw [hd] at hpos
    exact Nat.lt_irrefl 0 hpos
  have htick : tick s2 now2 = (s2, none) := by
    simp only [tick]
    rw [if_neg hcond, hjobs2]
  refine ⟨by rw [htick], by rw [htick]; exact ⟨hterm, hov, hp⟩, ?_⟩
  rcases hp with hp | ⟨hp, ha⟩
  · have hrc : resizeComplete s2 =
        { s2 with actual_count := 0, pending_resize := none } := by
      simp only [resizeComplete, hp]
    rw [hrc]
    exact ⟨hterm, hov, Or.inr ⟨rfl, rfl⟩⟩
  · have hrc : resizeComplete s2 = s2 := by
      simp only [resizeComplete, hp]
    rw [hrc]
    exact ⟨hterm, hov, Or.inr ⟨hp, ha⟩⟩

/-- C1: scale-to-zero guarantee — once every job is terminal (and no
manual override is outstanding), the next tick computes desired count 0
and issues the scale-down, and from then on every tick with no new
active job issues no further resize, across any interleaving of ticks
and resize completions. -/
theorem scale_to_zero (s : SystemState) (now : Nat)
    (hterm : allTerminal s.jobs = true) (hov : s.override = none)
    (hnf : s.pending_resize = none) (hup : s.actual_count ≠ 0) :
    desiredCount s.jobs s.override now = 0 ∧
    (tick s now).2 = some 0 ∧
    zeroQuiescent (tick s now).1 ∧
    (∀ s2 now2, zeroQuiescent s2 →
      (tick s2 now2).2 = none ∧ zeroQuiescent (tick s2 now2).1 ∧
      zeroQuiescent (resizeComplete s2)) := by
  have hd : desiredCount s.jobs s.override now = 0 := by
    rw [hov]; exact desiredCount_eq_zero s.jobs now hterm
  have hcond : s.actual_count ≠ desiredCount s.jobs s.override now ∧
      s.pending_resize = none := ⟨by rw [hd]; exact hup, hnf⟩
  have hjobs2 : (if desiredCount s.jobs s.override now ≤ s.actual_count ∧
      0 < desiredCount s.jobs s.override now then
        s.jobs.map (signalReady now) else s.jobs) = s.jobs := by
    rw [if_neg]
    rintro ⟨_, hpos⟩
    rw [hd] at hpos
    exact Nat.lt_irrefl 0 hpos
  have htick : tick s now =
      ({ s with jobs := s.jobs, pending_resize := some 0 }, some 0) := by
    simp only [tick]
    rw [if_pos hcond, hjobs2, hd]
  refine ⟨hd, by rw [htick], ?_,
    fun s2 now2 h => zeroQuiescent_stable s2 now2 h⟩
  rw [htick]
  exact ⟨hterm, hov, Or.inl rfl⟩

/-- Witness for C1: with one Completed job and the pool still at 2
nodes, the next tick issues the scale-down to 0. -/
theorem scale_to_zero_witness :
    allTerminal (SystemState.mk [sampleCompleted] 2 none none).jobs
        = true ∧
    (SystemState.mk [sampleCompleted] 2 none none).actual_count ≠ 0 ∧
    (tick (SystemState.mk [sampleCompleted] 2 none none) 10).2 = some 0 :=
  ⟨by decide, by decide,
    (scale_to_zero (SystemState.mk [sampleCompleted] 2 none none) 10
      (by decide) rfl rfl (by decide)).2.1⟩

end GpuApi
